import Mathlib

/-!
Verification of the portable-chatbot mock API layer.

This file gives a shallow embedding of the two source files of the
repository:

  * `src/mock-api.js`     — the browser-side fetch interceptor ("interception
    path"): namespace `MockApi`;
  * `src/backend-example.js` — the Express server ("listener path"):
    namespace `Backend`.

JavaScript strings are modelled by Lean `String` (a wrapper around
`List Char`); the JS string methods used by the sources
(`toLowerCase`, `includes`, `endsWith`, `startsWith`, `split(' ')`,
`Array.prototype.join`) are re-implemented below over `List Char` so that
they compute inside the kernel.  `Math.floor(Math.random() * n)` — a uniform
draw over `{0, ..., n-1}` — is modelled by passing an arbitrary `pick : Nat`
and indexing with `pick % n`.  Timers/delays (`setTimeout`, `setInterval`
pacing) only affect timing, not the emitted record sequence, and are not
modelled.  `JSON.parse` is a runtime collaborator: its outcome on a given
body is passed in as data (`Option`/`Except` fields), with `none`/`.error`
standing for a thrown `SyntaxError`.

SSE bodies are modelled at the record level: the wire form
`data: <json>\n\n` carries one JSON record per write, so a response body in
streaming form is a `List JsonVal`.
-/

/-- JS `c.toLowerCase()` for a single character: ASCII letters are mapped to
lower case (all characters occurring in the sources' keyword checks are
ASCII). -/
def lowerChar (c : Char) : Char :=
  if 'A' ≤ c && c ≤ 'Z' then Char.ofNat (c.toNat + 32) else c

/-- JS `s.toLowerCase()`. -/
def jsToLower (s : String) : String := String.mk (s.data.map lowerChar)

/-- Boolean prefix test on character lists. -/
def isPrefixB : List Char → List Char → Bool
  | [], _ => true
  | _ :: _, [] => false
  | a :: as, b :: bs => a == b && isPrefixB as bs

/-- Boolean substring (contiguous) test on character lists. -/
def isInfixB (pat : List Char) : List Char → Bool
  | [] => isPrefixB pat []
  | c :: rest => isPrefixB pat (c :: rest) || isInfixB pat rest

/-- JS `s.includes(pat)`. -/
def jsIncludes (s pat : String) : Bool := isInfixB pat.data s.data

/-- JS `s.endsWith(pat)`. -/
def jsEndsWith (s pat : String) : Bool := isPrefixB pat.data.reverse s.data.reverse

/-- JS `s.startsWith(pat)`. -/
def jsStartsWith (s pat : String) : Bool := isPrefixB pat.data s.data

/-- JS `s.split(' ')`: split on every single space character, keeping empty
pieces (`"a  b".split(' ') = ["a","","b"]`, `"".split(' ') = [""]`). -/
def jsSplit (s : String) : List String := (s.data.splitOn ' ').map String.mk

/-- JS `arr.join(sep)`. -/
def jsJoin (sep : String) : List String → String
  | [] => ""
  | [s] => s
  | s :: rest => s ++ sep ++ jsJoin sep rest

/-- Concatenation of a list of strings (used to state the streaming
round-trip law: content-record texts concatenated in emission order). -/
def concatAll : List String → String
  | [] => ""
  | s :: rest => s ++ concatAll rest

/-- Modelled from the spec: "splits `replyText` on whitespace into word
tokens".  Words are the maximal non-whitespace runs of the text (splitting on
space, tab, carriage return and newline and discarding empty pieces).  This
is the spec's notion; the sources split on the space character only, see
`jsSplit`. -/
def wsWords (s : String) : List String :=
  ((s.data.splitOnP (fun c => c == ' ' || c == '\t' || c == '\n' || c == '\r')).filter
    (fun w => !w.isEmpty)).map String.mk

/-- A JSON value, as produced by `JSON.parse` / consumed by
`JSON.stringify`. -/
inductive JsonVal where
  | jnull
  | jbool (b : Bool)
  | jnum (n : Int)
  | jstr (s : String)
  | jarr (elems : List JsonVal)
  | jobj (fields : List (String × JsonVal))

/-- JS truthiness of a field value; `none` stands for an absent field
(`undefined`).  (`NaN` is not modelled; `jnum` truthiness is `≠ 0`.) -/
def truthy : Option JsonVal → Bool
  | none => false
  | some .jnull => false
  | some (.jbool b) => b
  | some (.jnum n) => n != 0
  | some (.jstr s) => s != ""
  | some (.jarr _) => true
  | some (.jobj _) => true

/-- One parsed chat message `{role, content}`. -/
structure ChatMessage where
  role : String
  content : String

/-- The SSE record `{"content": s}` (one `data: <json>\n\n` write). -/
def contentRecord (s : String) : JsonVal := .jobj [("content", .jstr s)]

/-- The terminal SSE record `{"done": true}`. -/
def doneRecord : JsonVal := .jobj [("done", .jbool true)]

/-- A response body: either a sequence of SSE records or a single JSON
value. -/
inductive RespBody where
  | sse (records : List JsonVal)
  | jsonBody (v : JsonVal)

/-- An HTTP response as observed by the client: status, `Content-Type`
header, body. -/
structure HttpResponse where
  status : Nat
  contentType : String
  body : RespBody

namespace MockApi

/-- `mockResponses` of `src/mock-api.js` lines 9–15. -/
def mockResponses : List String :=
  [ "I\x27m a demo AI assistant! I can help you with various questions and tasks. What would you like to know?",
    "This is a simulated response from the Professional AI Chatbot. In a real implementation, I would be powered by your choice of AI model through your backend API.",
    "Great question! As a demo bot, I can show you how markdown formatting works:\n\n**Bold text**\n*Italic text*\n\n```javascript\nconsole.log(\x27Code highlighting!\x27);\n```\n\nAnd even lists:\n- Feature 1\n- Feature 2\n- Feature 3",
    "I notice this is a demo environment. The chatbot supports:\n\n🎨 **Rich Formatting** - Markdown and code highlighting\n📁 **File Uploads** - Attach documents and images\n🎯 **Customizable** - Themes, sizing, positioning\n💾 **Export** - Download conversation history\n🌙 **Dark Mode** - Light/dark theme switching",
    "This chatbot component is built with vanilla JavaScript and can be integrated into any web application. It\x27s framework-agnostic and works with React, Vue, Angular, or plain HTML!" ]

/-- `codeExamples` of `src/mock-api.js` lines 17–21. -/
def codeExamples : List String :=
  [ "Here\x27s a Python example:\n\n```python\ndef hello_world():\n    print(\x27Hello from the AI Chatbot!\x27)\n    return \x27Demo response\x27\n\nhello_world()\n```",
    "And here\x27s some JavaScript:\n\n```javascript\nconst chatbot = createChatbot(\x7b\n    endpoint: \x27/api/chat\x27,\n    theme: \x27dark\x27,\n    heading: \x27My AI Assistant\x27\n\x7d);\n\nchatbot.show();\n```",
    "CSS styling example:\n\n```css\n.my-custom-theme \x7b\n    --primary-color: #6366f1;\n    --background: #f8fafc;\n    border-radius: 16px;\n\x7d\n```" ]

/-- `technicalResponses` of `src/mock-api.js` lines 23–26. -/
def technicalResponses : List String :=
  [ "The chatbot uses modern web standards including:\n\n- **Web Components** for encapsulation\n- **CSS Custom Properties** for theming\n- **Intersection Observer** for performance\n- **File API** for attachments\n- **Local Storage** for persistence",
    "Performance optimizations include:\n\n✅ Lazy loading of resources\n✅ Efficient DOM manipulation\n✅ Debounced resize handlers\n✅ Minimal bundle size (31.3KB)\n✅ Tree-shakeable modules" ]

/-- The fixed integration reply returned at `src/mock-api.js` line 46. -/
def integrationResponse : String :=
  "Integration is simple! Just include the script and initialize:\n\n```html\n<script src=\"portable-chatbot.js\" \n        data-chatbot-endpoint=\"/api/chat\"\n        data-chatbot-heading=\"My Bot\"></script>\n```\n\nOr programmatically:\n\n```javascript\nconst bot = createChatbot(\x7b\n    endpoint: \x27/api/chat\x27,\n    theme: \x27dark\x27\n\x7d);\n```"

/-- `generateResponse(message)` of `src/mock-api.js` lines 34–50.  The
uniform random index `Math.floor(Math.random() * arr.length)` is modelled as
`pick % arr.length` for an arbitrary `pick`. -/
def generateResponse (message : String) (pick : Nat) : String :=
  let lowerMsg := jsToLower message
  if jsIncludes lowerMsg "code" || jsIncludes lowerMsg "javascript" || jsIncludes lowerMsg "python" then
    codeExamples.getD (pick % codeExamples.length) ""
  else if jsIncludes lowerMsg "technical" || jsIncludes lowerMsg "performance" || jsIncludes lowerMsg "optimize" then
    technicalResponses.getD (pick % technicalResponses.length) ""
  else if jsIncludes lowerMsg "how" && (jsIncludes lowerMsg "work" || jsIncludes lowerMsg "integrate") then
    integrationResponse
  else
    mockResponses.getD (pick % mockResponses.length) ""

/-- One `FormData` entry `[key, value]`; `name` is the `value.name` read at
`src/mock-api.js` line 75 when the value is a `File` (for non-file entries it
is never read). -/
structure FormEntry where
  key : String
  name : String

/-- The fields of the parsed JSON request body that the interceptor reads
(`data.messages`, `data.stream`, lines 99 and 110).  The embedding models
bodies whose `messages` field, when present, is an array of `{role, content}`
records; `stream` is kept as a raw JSON value because only its truthiness is
consulted. -/
structure ParsedData where
  messages : Option (List ChatMessage)
  stream : Option JsonVal

/-- The request body passed to `fetch`:  a `FormData`, a string (together
with the outcome of `JSON.parse` on it — `none` when parsing throws,
lines 96–103), or anything else (e.g. no body). -/
inductive Body where
  | formData (entries : List FormEntry)
  | strBody (raw : String) (parsed : Option ParsedData)
  | otherBody

/-- The options argument of `fetch(url, options)`. -/
structure FetchOptions where
  method : Option String
  headers : List (String × String)
  body : Body

/-- A `fetch` URL argument: a plain string or a `URL` object (of which the
interceptor reads `pathname`). -/
inductive JsUrl where
  | str (s : String)
  | url (pathname : String)

/-- `isApiCall` of `src/mock-api.js` lines 57–59. -/
def isApiCall : JsUrl → Bool
  | .str s => jsIncludes s "/api/chat" || jsEndsWith s "/api/chat"
  | .url p => jsIncludes p "/api/chat"

/-- File names collected from the `FormData` at lines 72–77: the `value.name`
of every entry whose key starts with `file_`. -/
def filesOf (entries : List FormEntry) : List String :=
  (entries.filter (fun e => jsStartsWith e.key "file_")).map (fun e => e.name)

/-- The reply of the `FormData` branch, lines 79–81. -/
def fileReply (files : List String) (pick : Nat) : String :=
  if 0 < files.length then
    "I can see you\x27ve uploaded: **" ++ jsJoin ", " files ++ "**\n\nIn a real implementation, I would analyze these files. For this demo, I\x27m just acknowledging them!"
  else
    generateResponse "file upload" pick

/-- `data` as used at lines 95–103: the parse outcome of a string body, or
the empty object `{}` otherwise. -/
def parsedOf (body : Body) : ParsedData :=
  match body with
  | .strBody _ (some d) => d
  | _ => { messages := none, stream := none }

/-- `messages = data.messages || []` (line 99 with the line 68 default). -/
def messagesOf (body : Body) : List ChatMessage :=
  (parsedOf body).messages.getD []

/-- `userMessage` of lines 105–106: the content of the last message, or the
literal `'Hello'` when there is none. -/
def userMessageOf (body : Body) : String :=
  match (messagesOf body).getLast? with
  | some m => m.content
  | none => "Hello"

/-- The reply selected for a non-`FormData` request (line 107). -/
def selectedReply (body : Body) (pick : Nat) : String :=
  generateResponse (userMessageOf body) pick

/-- Whether the streaming branch is taken: `if (data.stream)` at line 110 —
JS truthiness of the `stream` field. -/
def streamRequested (body : Body) : Bool :=
  truthy (parsedOf body).stream

/-- The content texts of the streamed chunks, lines 111 and 116–129:
`chunks = response.split(' ')`, and chunk `i` carries
`i === 0 ? chunks[i] : ' ' + chunks[i]` (a leading space on every chunk but
the first). -/
def mockChunkTexts (response : String) : List String :=
  match jsSplit response with
  | [] => []
  | c :: cs => c :: cs.map (fun w => " " ++ w)

/-- The full record sequence of the interception path's streaming response:
one `{content: ...}` record per chunk, then `{"done": true}`
(lines 114–138). -/
def mockStreamRecords (response : String) : List JsonVal :=
  (mockChunkTexts response).map contentRecord ++ [doneRecord]

/-- The intercepted `/api/chat` handling, `src/mock-api.js` lines 66–159
(the `try` body; in the embedding no step throws, so the `catch` at
lines 161–169 is unreachable). -/
def handleApiCall (body : Body) (pick : Nat) : HttpResponse :=
  match body with
  | .formData entries =>
    let files := filesOf entries
    { status := 200
      contentType := "application/json"
      body := .jsonBody (.jobj
        [("choices", .jarr [.jobj [("message", .jobj [("content", .jstr (fileReply files pick))])]])]) }
  | b =>
    let response := selectedReply b pick
    if streamRequested b then
      { status := 200
        contentType := "text/event-stream"
        body := .sse (mockStreamRecords response) }
    else
      { status := 200
        contentType := "text/event-stream"
        body := .sse [contentRecord response, doneRecord] }

/-- The result of calling the patched `window.fetch`: either a mocked
response or a pass-through to the original fetch with the original
arguments. -/
inductive FetchResult where
  | mocked (r : HttpResponse)
  | passthrough (url : JsUrl) (options : FetchOptions)

/-- The patched `window.fetch` of `src/mock-api.js` lines 55–174. -/
def windowFetch (url : JsUrl) (options : FetchOptions) (pick : Nat) : FetchResult :=
  if isApiCall url then
    .mocked (handleApiCall options.body pick)
  else
    .passthrough url options

end MockApi

namespace Backend

/-- `mockResponses` of `src/backend-example.js` lines 55–63. -/
def mockResponses : List String :=
  [ "Hello! I\x27m a demo AI assistant. How can I help you today?",
    "That\x27s an interesting question! Let me think about that for a moment.",
    "I understand what you\x27re asking. Here\x27s what I think about that topic.",
    "Thanks for sharing that with me. I appreciate your input.",
    "I\x27m here to help with any questions you might have.",
    "That\x27s a great point! Let me expand on that idea.",
    "I can see why that would be important to you." ]

/-- `getRandomResponse()` of lines 65–67, with the uniform draw modelled as
`pick % mockResponses.length`. -/
def getRandomResponse (pick : Nat) : String :=
  mockResponses.getD (pick % mockResponses.length) ""

/-- The fixed code reply of line 120. -/
def codeResponse : String :=
  "Here\x27s a code example:\n\n```javascript\nfunction greet(name) \x7b\n    return `Hello, $\x7bname\x7d!`;\n\x7d\n\nconsole.log(greet(\"World\"));\n```\n\nThis function demonstrates basic JavaScript syntax with template literals."

/-- The fixed markdown reply of line 122. -/
def markdownResponse : String :=
  "Here\x27s some **markdown** formatting:\n\n# Header 1\n## Header 2\n\n- List item 1\n- List item 2\n\n*Italic text* and **bold text**\n\n> This is a blockquote\n\nAnd here\x27s a [link](https://example.com)!"

/-- One uploaded file as multer presents it to the handler (`originalname`,
`mimetype`). -/
structure UploadedFile where
  originalname : String
  mimetype : String

/-- The `messages` field of `req.body`: either a string (form-data
submission) together with the outcome of `JSON.parse` on it — `.error msg`
when parsing throws a `SyntaxError` with that message — or an already-parsed
array (JSON submission through `express.json`). -/
inductive MessagesField where
  | strField (raw : String) (parsed : Except String (List ChatMessage))
  | arrField (msgs : List ChatMessage)

/-- An inbound request as the `/api/chat` handler sees it: `req.body.messages`,
`req.body.stream` and `req.files`. -/
structure ChatRequest where
  messages : Option MessagesField
  stream : Option JsonVal
  files : List UploadedFile

/-- Lines 79–86: `if (req.body.messages)` (an empty string is falsy, so it
degrades to `[]`), then `typeof req.body.messages === 'string' ?
JSON.parse(req.body.messages) : req.body.messages`.  A thrown parse error
propagates as `.error`. -/
def parseMessages : Option MessagesField → Except String (List ChatMessage)
  | none => .ok []
  | some (.arrField ms) => .ok ms
  | some (.strField raw p) => if raw == "" then .ok [] else p

/-- `isStreaming` of line 89:
`req.body.stream === 'true' || req.body.stream === true`. -/
def isStreaming (stream : Option JsonVal) : Bool :=
  match stream with
  | some (.jstr s) => s == "true"
  | some (.jbool b) => b
  | _ => false

/-- `userMessage` of lines 111–112: the content of the last message, or the
empty string `''` when there is none. -/
def userMessageOf (messages : List ChatMessage) : String :=
  match messages.getLast? with
  | some m => m.content
  | none => ""

/-- The reply of the file branch, lines 116–118. -/
def fileReply (files : List UploadedFile) : String :=
  "I can see you\x27ve uploaded " ++ toString files.length ++ " file(s): "
    ++ jsJoin ", " (files.map (fun f => f.originalname))
    ++ ". I\x27m a demo bot so I can\x27t actually process files, but in a real implementation, I would analyze them for you!"

/-- The response selection of lines 114–125. -/
def selectResponse (userMessage : String) (files : List UploadedFile) (pick : Nat) : String :=
  if jsIncludes (jsToLower userMessage) "file" = true ∧ 0 < files.length then
    fileReply files
  else if jsIncludes (jsToLower userMessage) "code" = true then
    codeResponse
  else if jsIncludes (jsToLower userMessage) "markdown" = true then
    markdownResponse
  else
    getRandomResponse pick

/-- The content texts of the streamed chunks, lines 135–146:
`words = response.split(' ')`, and the chunk for `words[i]` carries
`words[i] + (i < words.length - 1 ? ' ' : '')` — a trailing space on every
word but the last. -/
def chunkWords : List String → List String
  | [] => []
  | [w] => [w]
  | w :: ws => (w ++ " ") :: chunkWords ws

/-- The full record sequence of the listener path's streaming response: one
`{content: ...}` record per word, then `{"done": true}` (lines 138–149). -/
def backendStreamRecords (response : String) : List JsonVal :=
  (chunkWords (jsSplit response)).map contentRecord ++ [doneRecord]

/-- The `/api/chat` handler of `src/backend-example.js` lines 74–170.
`timestamp` stands for `new Date().toISOString()` at line 159.  A messages
parse failure is caught by the handler's `try`/`catch` (lines 163–169) and
surfaces as the 500 error response. -/
def chatHandler (req : ChatRequest) (pick : Nat) (timestamp : String) : HttpResponse :=
  match parseMessages req.messages with
  | .error msg =>
    { status := 500
      contentType := "application/json"
      body := .jsonBody (.jobj [("error", .jstr "Internal server error"), ("message", .jstr msg)]) }
  | .ok messages =>
    let userMessage := userMessageOf messages
    let response := selectResponse userMessage req.files pick
    if isStreaming req.stream then
      { status := 200
        contentType := "text/event-stream"
        body := .sse (backendStreamRecords response) }
    else
      { status := 200
        contentType := "application/json"
        body := .jsonBody (.jobj
          [("content", .jstr response), ("done", .jbool true), ("timestamp", .jstr timestamp)]) }

/-- The mime-type allowlist of `upload.fileFilter`, lines 27–32. -/
def allowedTypes : List String :=
  [ "image/jpeg", "image/png", "image/gif", "image/webp",
    "application/pdf", "text/plain",
    "application/msword",
    "application/vnd.openxmlformats-officedocument.wordprocessingml.document" ]

/-- The errors that can reach the error-handling middleware from the upload
phase: a `multer.MulterError` (file-size / file-count limit, lines 21–24) or
a plain `Error` such as the one constructed by `fileFilter` at line 37. -/
inductive UploadError where
  | limitFileSize
  | limitFileCount
  | plainErr (message : String)

/-- `fileFilter` of lines 25–39: accept an allowlisted mime type, otherwise
fail with a plain `Error` naming the type (not a `multer.MulterError`). -/
def fileFilter (mimetype : String) : Except UploadError Unit :=
  if allowedTypes.contains mimetype then .ok ()
  else .error (.plainErr ("File type " ++ mimetype ++ " not allowed"))

/-- Running `fileFilter` over the uploaded files in order; the first
rejection aborts the upload. -/
def checkFiles : List UploadedFile → Except UploadError Unit
  | [] => .ok ()
  | f :: fs =>
    match fileFilter f.mimetype with
    | .ok _ => checkFiles fs
    | .error e => .error e

/-- The multer upload phase: the `files: 5` limit of line 23 (the file-size
limit is not modelled — the embedding carries no sizes), then the per-file
filter. -/
def uploadPhase (files : List UploadedFile) : Except UploadError Unit :=
  if 5 < files.length then .error .limitFileCount
  else checkFiles files

/-- The error-handling middleware of lines 202–222: the two
`multer.MulterError` codes get a 400, every other error — including the
plain `Error` thrown by `fileFilter` — falls through to the 500 `Server
error` shape. -/
def errorMiddleware : UploadError → HttpResponse
  | .limitFileSize =>
    { status := 400
      contentType := "application/json"
      body := .jsonBody (.jobj [("error", .jstr "File too large"), ("message", .jstr "Maximum file size is 10MB")]) }
  | .limitFileCount =>
    { status := 400
      contentType := "application/json"
      body := .jsonBody (.jobj [("error", .jstr "Too many files"), ("message", .jstr "Maximum 5 files allowed")]) }
  | .plainErr msg =>
    { status := 500
      contentType := "application/json"
      body := .jsonBody (.jobj [("error", .jstr "Server error"), ("message", .jstr msg)]) }

/-- The listener pipeline for `POST /api/chat`: `upload.any()` runs first
(line 74); an upload error skips the handler and goes to the error
middleware, otherwise the chat handler runs. -/
def listenerPipeline (req : ChatRequest) (pick : Nat) (timestamp : String) : HttpResponse :=
  match uploadPhase req.files with
  | .error e => errorMiddleware e
  | .ok _ => chatHandler req pick timestamp

end Backend

/-- Modelled from the spec: the canonical streaming flag of §4.1 — "true iff
the relevant field equals boolean `true` or the literal text `\"true\"`"
(claim C4's characterization). -/
def claimedStreaming (stream : Option JsonVal) : Bool :=
  match stream with
  | some (.jbool true) => true
  | some (.jstr s) => decide (s = "true")
  | _ => false

/-- Modelled from the spec: the fragment texts of §4.3 — one fragment per
whitespace word token, "each carrying the token plus a trailing space except
the final token" (claim C3's characterization). -/
def specTrailing : List String → List String
  | [] => []
  | [w] => [w]
  | w :: ws => (w ++ " ") :: specTrailing ws

/-- Modelled from the spec: the streamed content texts claimed by C3, over
the whitespace word tokens of the reply. -/
def specFragmentTexts (reply : String) : List String :=
  specTrailing (wsWords reply)



/-! ## Helper lemmas -/

theorem concatAll_map_mk (l : List (List Char)) :
    concatAll (l.map String.mk) = String.mk l.flatten := by
  induction l with
  | nil => rfl
  | cons h t ih => simp only [List.map_cons, concatAll, ih, List.flatten_cons]; rfl

theorem flatten_leadingSpace (c : List Char) (cs : List (List Char)) :
    (c :: cs.map (fun w => ' ' :: w)).flatten = [' '].intercalate (c :: cs) := by
  induction cs generalizing c with
  | nil => simp [List.intercalate]
  | cons d ds ih =>
    have h2 : [' '].intercalate (c :: d :: ds) = c ++ [' '] ++ [' '].intercalate (d :: ds) := by
      simp [List.intercalate, List.intersperse_cons_cons]
    rw [h2, ← ih d]
    simp

theorem concat_chunkWords : ∀ (ls : List (List Char)), ls ≠ [] →
    concatAll (Backend.chunkWords (ls.map String.mk)) = String.mk ([' '].intercalate ls)
  | [], h => absurd rfl h
  | [c], _ => by
    simp [Backend.chunkWords, concatAll, List.intercalate, String.append_empty]
  | c :: d :: t, _ => by
    have ih := concat_chunkWords (d :: t) (by simp)
    have h2 : [' '].intercalate (c :: d :: t) = c ++ [' '] ++ [' '].intercalate (d :: t) := by
      simp [List.intercalate, List.intersperse_cons_cons]
    simp only [List.map_cons, Backend.chunkWords, concatAll] at ih ⊢
    rw [ih, h2]
    rfl

theorem chunkWords_length : ∀ (l : List String), (Backend.chunkWords l).length = l.length
  | [] => rfl
  | [_] => rfl
  | _ :: x :: ws => by simp [Backend.chunkWords, chunkWords_length (x :: ws)]

theorem chunkWords_getD : ∀ (l : List String) (i : Nat), i < l.length →
    (Backend.chunkWords l).getD i "" =
      (if i < l.length - 1 then l.getD i "" ++ " " else l.getD i "")
  | [], i, h => absurd h (by simp)
  | [w], 0, _ => by simp [Backend.chunkWords]
  | [w], (i+1), h => by simp at h
  | w :: x :: ws, 0, _ => by simp [Backend.chunkWords]
  | w :: x :: ws, (i+1), h => by
    have ih := chunkWords_getD (x :: ws) i (by simpa using h)
    simp only [Backend.chunkWords, List.getD_cons_succ, List.length_cons] at ih ⊢
    rw [ih]
    simp only [Nat.add_sub_cancel, Nat.succ_lt_succ_iff]

theorem mockChunks_getD (c : String) (cs : List String) (i : Nat) (h : i < (c :: cs).length) :
    (c :: cs.map (fun w => " " ++ w)).getD i "" =
      (if i = 0 then (c :: cs).getD i "" else " " ++ (c :: cs).getD i "") := by
  cases i with
  | zero => simp
  | succ n =>
    simp only [List.getD_cons_succ, if_neg (Nat.succ_ne_zero n)]
    have hn : n < cs.length := by simpa using h
    rw [List.getD_eq_getElem _ _ (by simpa using hn), List.getD_eq_getElem _ _ hn]
    simp

theorem jsSplit_ne_nil (s : String) : jsSplit s ≠ [] := by
  unfold jsSplit
  simp only [ne_eq, List.map_eq_nil_iff]
  exact List.splitOnP_ne_nil _ _

theorem mockChunkTexts_length (r : String) :
    (MockApi.mockChunkTexts r).length = (jsSplit r).length := by
  unfold MockApi.mockChunkTexts
  rcases jsSplit r with _ | ⟨c, cs⟩ <;> simp

theorem mock_roundtrip (r : String) : concatAll (MockApi.mockChunkTexts r) = r := by
  unfold MockApi.mockChunkTexts jsSplit
  rcases hs : r.data.splitOn ' ' with _ | ⟨c, cs⟩
  · exact absurd hs (by simpa [List.splitOn] using List.splitOnP_ne_nil (fun x => x == ' ') r.data)
  · simp only [List.map_cons]
    have hmap : (cs.map String.mk).map (fun w => " " ++ w)
        = (cs.map (fun w => ' ' :: w)).map String.mk := by
      simp only [List.map_map]
      rfl
    rw [hmap]
    have hconc := concatAll_map_mk (c :: cs.map (fun w => ' ' :: w))
    simp only [List.map_cons] at hconc
    rw [hconc, flatten_leadingSpace, ← hs, List.intercalate_splitOn r.data ' ']

theorem backend_roundtrip (r : String) :
    concatAll (Backend.chunkWords (jsSplit r)) = r := by
  unfold jsSplit
  rw [concat_chunkWords (r.data.splitOn ' ')
    (by simpa [List.splitOn] using List.splitOnP_ne_nil (fun x => x == ' ') r.data)]
  rw [List.intercalate_splitOn r.data ' ']

/-! ## Claims -/

/-- C1, counterexample: the claim counts `k` by splitting the reply on
whitespace, but the sources split on the space character only.  For the
request below (streaming on, message `"show me code"`, draw 0) the selected
reply is `codeExamples[0]`, which contains newlines; the emitted record
sequence is the streamed one, and its length is not the whitespace word
count plus one. -/
theorem C1_counterexample :
    (MockApi.handleApiCall
        (.strBody "\x7b\"messages\": [\x7b\"role\": \"user\", \"content\": \"show me code\"\x7d], \"stream\": true\x7d"
          (some { messages := some [{ role := "user", content := "show me code" }],
                  stream := some (.jbool true) })) 0).body
      = .sse (MockApi.mockStreamRecords (MockApi.codeExamples.getD 0 "")) ∧
    (MockApi.mockStreamRecords (MockApi.codeExamples.getD 0 "")).length
      ≠ (wsWords (MockApi.codeExamples.getD 0 "")).length + 1 :=
  ⟨rfl, by decide⟩

/-- C1 (amended): for every streamed reply, with `k` the number of tokens
obtained by splitting the reply on the space character (JS `split(' ')`),
the emitted wire sequence consists of exactly `k` content records followed
by the terminal record, and concatenating the content-record texts in
emission order yields exactly the original reply text, on both the
interception path and the listener path. -/
theorem C1_stream_roundtrip (response : String) :
    (MockApi.mockStreamRecords response).length = (jsSplit response).length + 1 ∧
    concatAll (MockApi.mockChunkTexts response) = response ∧
    (Backend.backendStreamRecords response).length = (jsSplit response).length + 1 ∧
    concatAll (Backend.chunkWords (jsSplit response)) = response := by
  refine ⟨?_, mock_roundtrip response, ?_, backend_roundtrip response⟩
  · simp [MockApi.mockStreamRecords, mockChunkTexts_length]
  · simp [Backend.backendStreamRecords, chunkWords_length]

/-- C2, counterexample: on the listener path a non-streaming request is
answered with a single JSON object (`res.json`, lines 156–160 of
`src/backend-example.js`), not with the 2-record SSE framing the claim
asserts. -/
theorem C2_counterexample :
    Backend.chatHandler
        { messages := some (.arrField [{ role := "user", content := "hi" }]),
          stream := some (.jbool false), files := [] } 0 "2024-01-01T00:00:00.000Z"
      = { status := 200, contentType := "application/json",
          body := .jsonBody (.jobj
            [("content", .jstr (Backend.mockResponses.getD 0 "")),
             ("done", .jbool true),
             ("timestamp", .jstr "2024-01-01T00:00:00.000Z")]) } ∧
    (Backend.chatHandler
        { messages := some (.arrField [{ role := "user", content := "hi" }]),
          stream := some (.jbool false), files := [] } 0 "2024-01-01T00:00:00.000Z").body
      ≠ .sse [contentRecord (Backend.mockResponses.getD 0 ""), doneRecord] := by
  refine ⟨rfl, ?_⟩
  intro h
  have hb : (Backend.chatHandler
      { messages := some (.arrField [{ role := "user", content := "hi" }]),
        stream := some (.jbool false), files := [] } 0 "2024-01-01T00:00:00.000Z").body
      = .jsonBody (.jobj
          [("content", .jstr (Backend.mockResponses.getD 0 "")),
           ("done", .jbool true),
           ("timestamp", .jstr "2024-01-01T00:00:00.000Z")]) := rfl
  rw [hb] at h
  exact RespBody.noConfusion h

/-- C2 (amended): for every request with `streaming = false`, the
interception path answers with the SSE framing carrying exactly 2 records —
one content record with the full selected reply, then `{"done": true}` —
while the listener path answers with a single atomic JSON object
`{content, done: true, timestamp}` whose `content` is the full selected
reply. -/
theorem C2_nonstreaming_shape
    (raw : String) (d : MockApi.ParsedData) (pick : Nat)
    (req : Backend.ChatRequest) (ts : String) (msgs : List ChatMessage)
    (hmock : truthy d.stream = false)
    (hparse : Backend.parseMessages req.messages = .ok msgs)
    (hstream : Backend.isStreaming req.stream = false) :
    (MockApi.handleApiCall (.strBody raw (some d)) pick).body
      = .sse [contentRecord (MockApi.selectedReply (.strBody raw (some d)) pick), doneRecord] ∧
    Backend.chatHandler req pick ts
      = { status := 200, contentType := "application/json",
          body := .jsonBody (.jobj
            [("content", .jstr (Backend.selectResponse (Backend.userMessageOf msgs) req.files pick)),
             ("done", .jbool true), ("timestamp", .jstr ts)]) } := by
  constructor
  · simp only [MockApi.handleApiCall]
    have hsr : MockApi.streamRequested (.strBody raw (some d)) = false := hmock
    rw [hsr]
    simp
  · unfold Backend.chatHandler
    rw [hparse]
    simp only [hstream]
    simp

/-- C2 witness: the amended non-streaming shapes at a concrete request. -/
theorem C2_nonstreaming_shape_witness :
    truthy (MockApi.ParsedData.stream
      { messages := some [{ role := "user", content := "hi" }], stream := some (.jbool false) }) = false ∧
    Backend.parseMessages (some (.arrField [{ role := "user", content := "hi" }]))
      = .ok [{ role := "user", content := "hi" }] ∧
    Backend.isStreaming (some (.jbool false)) = false ∧
    ((MockApi.handleApiCall (.strBody "x"
        (some { messages := some [{ role := "user", content := "hi" }],
                stream := some (.jbool false) })) 0).body
      = .sse [contentRecord (MockApi.selectedReply (.strBody "x"
          (some { messages := some [{ role := "user", content := "hi" }],
                  stream := some (.jbool false) })) 0), doneRecord] ∧
    Backend.chatHandler
        { messages := some (.arrField [{ role := "user", content := "hi" }]),
          stream := some (.jbool false), files := [] } 0 "t"
      = { status := 200, contentType := "application/json",
          body := .jsonBody (.jobj
            [("content", .jstr (Backend.selectResponse (Backend.userMessageOf
                [{ role := "user", content := "hi" }]) [] 0)),
             ("done", .jbool true), ("timestamp", .jstr "t")]) }) :=
  ⟨rfl, rfl, rfl,
    C2_nonstreaming_shape "x"
      { messages := some [{ role := "user", content := "hi" }], stream := some (.jbool false) } 0
      { messages := some (.arrField [{ role := "user", content := "hi" }]),
        stream := some (.jbool false), files := [] } "t"
      [{ role := "user", content := "hi" }] rfl rfl rfl⟩

/-- C3, counterexample: the claim asserts the trailing-space convention
(token plus a trailing space except the final token) on both paths, but the
interception path prepends a leading space to every chunk except the first
(`i === 0 ? chunks[i] : ' ' + chunks[i]`).  For the reply `mockResponses[0]`
the second emitted content text is `" a"`, while the claimed form is
`"a "`. -/
theorem C3_counterexample :
    MockApi.mockChunkTexts (MockApi.mockResponses.getD 0 "")
      ≠ specFragmentTexts (MockApi.mockResponses.getD 0 "") ∧
    (MockApi.mockChunkTexts (MockApi.mockResponses.getD 0 "")).getD 1 "" = " a" ∧
    (specFragmentTexts (MockApi.mockResponses.getD 0 "")).getD 1 "" = "a " :=
  ⟨by decide, by decide, by decide⟩

/-- C3 (amended): with tokens obtained by splitting the reply on the space
character, the listener path's content fragment `i` carries the token plus a
trailing space except the last token, while the interception path's content
fragment `i` carries the token with a leading space prepended to every token
except the first. -/
theorem C3_fragment_shape (response : String) (i : Nat)
    (hi : i < (jsSplit response).length) :
    (Backend.chunkWords (jsSplit response)).getD i "" =
      (if i < (jsSplit response).length - 1 then (jsSplit response).getD i "" ++ " "
       else (jsSplit response).getD i "") ∧
    (MockApi.mockChunkTexts response).getD i "" =
      (if i = 0 then (jsSplit response).getD i "" else " " ++ (jsSplit response).getD i "") := by
  refine ⟨chunkWords_getD _ i hi, ?_⟩
  unfold MockApi.mockChunkTexts
  rcases hs : jsSplit response with _ | ⟨c, cs⟩
  · rw [hs] at hi
    simp at hi
  · rw [hs] at hi
    exact mockChunks_getD c cs i hi

/-- C3 witness: the amended fragment shapes at the reply `"one two"`,
fragment index 1. -/
theorem C3_fragment_shape_witness :
    1 < (jsSplit "one two").length ∧
    ((Backend.chunkWords (jsSplit "one two")).getD 1 "" =
      (if 1 < (jsSplit "one two").length - 1 then (jsSplit "one two").getD 1 "" ++ " "
       else (jsSplit "one two").getD 1 "") ∧
    (MockApi.mockChunkTexts "one two").getD 1 "" =
      (if 1 = 0 then (jsSplit "one two").getD 1 "" else " " ++ (jsSplit "one two").getD 1 "")) :=
  ⟨by decide, C3_fragment_shape "one two" 1 (by decide)⟩

/-- C4, counterexample: the interception path decides streaming by JS
truthiness of `data.stream` (`if (data.stream)`), not by the
`=== true || === 'true'` test the claim asserts for both paths: the string
`"false"` is truthy, so a request with `stream: "false"` is streamed (the
record sequence is the many-record streamed one, not the 2-record
non-streaming one). -/
theorem C4_counterexample :
    truthy (some (.jstr "false")) = true ∧
    claimedStreaming (some (.jstr "false")) = false ∧
    (MockApi.handleApiCall (.strBody "\x7b\"stream\": \"false\"\x7d"
        (some { messages := some [], stream := some (.jstr "false") })) 0).body
      = .sse (MockApi.mockStreamRecords (MockApi.mockResponses.getD 0 "")) ∧
    (MockApi.mockStreamRecords (MockApi.mockResponses.getD 0 "")).length ≠ 2 :=
  ⟨rfl, rfl, rfl, by decide⟩

/-- C4 (amended): the listener path's streaming flag is true iff the
`stream` field equals boolean `true` or the literal text `"true"` (as the
claim states); the interception path instead takes the streaming branch iff
the `stream` field is truthy, and otherwise emits the 2-record non-streaming
sequence. -/
theorem C4_streaming_flag :
    (∀ v : Option JsonVal, Backend.isStreaming v = claimedStreaming v) ∧
    (∀ (raw : String) (d : MockApi.ParsedData) (pick : Nat),
      (MockApi.handleApiCall (.strBody raw (some d)) pick).body =
        (if truthy d.stream then
          .sse (MockApi.mockStreamRecords (MockApi.selectedReply (.strBody raw (some d)) pick))
        else
          .sse [contentRecord (MockApi.selectedReply (.strBody raw (some d)) pick), doneRecord])) := by
  constructor
  · intro v
    rcases v with _ | v
    · rfl
    · rcases v with _ | b | n | s | l | f
      · rfl
      · cases b <;> rfl
      · rfl
      · simp only [Backend.isStreaming, claimedStreaming]
        by_cases h : s = "true" <;> simp [h]
      · rfl
      · rfl
  · intro raw d pick
    simp only [MockApi.handleApiCall]
    have hsr : MockApi.streamRequested (.strBody raw (some d)) = truthy d.stream := rfl
    rw [hsr]
    cases truthy d.stream <;> simp

/-- C5: a last user message containing both the file-intent keyword and a
code keyword, with attachments present, selects the file-acknowledgment
branch (naming every attachment), pre-empting the code branch — on the
listener path through the ordered `if`/`else if` of lines 114–125, and on
the interception path where a `FormData` request with `file_` entries is
always answered with the acknowledgment naming every uploaded file. -/
theorem C5_file_preempts_code
    (msgs : List ChatMessage) (files : List Backend.UploadedFile)
    (entries : List MockApi.FormEntry) (pick : Nat)
    (hfile : jsIncludes (jsToLower (Backend.userMessageOf msgs)) "file" = true)
    (hcode : jsIncludes (jsToLower (Backend.userMessageOf msgs)) "code" = true)
    (hfs : files ≠ [])
    (hes : MockApi.filesOf entries ≠ []) :
    Backend.selectResponse (Backend.userMessageOf msgs) files pick = Backend.fileReply files ∧
    (MockApi.handleApiCall (.formData entries) pick).body =
      .jsonBody (.jobj [("choices", .jarr [.jobj [("message", .jobj
        [("content", .jstr (MockApi.fileReply (MockApi.filesOf entries) pick))])]])]) ∧
    MockApi.fileReply (MockApi.filesOf entries) pick =
      "I can see you\x27ve uploaded: **" ++ jsJoin ", " (MockApi.filesOf entries)
        ++ "**\n\nIn a real implementation, I would analyze these files. For this demo, I\x27m just acknowledging them!" := by
  refine ⟨?_, rfl, ?_⟩
  · unfold Backend.selectResponse
    rw [if_pos ⟨hfile, List.length_pos.mpr hfs⟩]
  · unfold MockApi.fileReply
    rw [if_pos (List.length_pos.mpr hes)]

/-- C5 witness: the keyword-priority law at the message
`"analyze the file with this code"` and one attached `report.pdf`. -/
theorem C5_file_preempts_code_witness :
    jsIncludes (jsToLower (Backend.userMessageOf
      [{ role := "user", content := "analyze the file with this code" }])) "file" = true ∧
    jsIncludes (jsToLower (Backend.userMessageOf
      [{ role := "user", content := "analyze the file with this code" }])) "code" = true ∧
    ([{ originalname := "report.pdf", mimetype := "application/pdf" }]
      : List Backend.UploadedFile) ≠ [] ∧
    MockApi.filesOf [{ key := "file_0", name := "report.pdf" }] ≠ [] ∧
    (Backend.selectResponse (Backend.userMessageOf
        [{ role := "user", content := "analyze the file with this code" }])
        [{ originalname := "report.pdf", mimetype := "application/pdf" }] 0
      = Backend.fileReply [{ originalname := "report.pdf", mimetype := "application/pdf" }] ∧
    (MockApi.handleApiCall (.formData [{ key := "file_0", name := "report.pdf" }]) 0).body =
      .jsonBody (.jobj [("choices", .jarr [.jobj [("message", .jobj
        [("content", .jstr (MockApi.fileReply
          (MockApi.filesOf [{ key := "file_0", name := "report.pdf" }]) 0))])]])]) ∧
    MockApi.fileReply (MockApi.filesOf [{ key := "file_0", name := "report.pdf" }]) 0 =
      "I can see you\x27ve uploaded: **"
        ++ jsJoin ", " (MockApi.filesOf [{ key := "file_0", name := "report.pdf" }])
        ++ "**\n\nIn a real implementation, I would analyze these files. For this demo, I\x27m just acknowledging them!") :=
  ⟨by decide, by decide, List.cons_ne_nil _ _, by decide,
    C5_file_preempts_code
      [{ role := "user", content := "analyze the file with this code" }]
      [{ originalname := "report.pdf", mimetype := "application/pdf" }]
      [{ key := "file_0", name := "report.pdf" }] 0
      (by decide) (by decide) (List.cons_ne_nil _ _) (by decide)⟩

/-- C6, counterexample: on the listener path a non-empty `messages` string
that fails `JSON.parse` is not silently recovered — the thrown `SyntaxError`
is caught by the handler's `try`/`catch` and surfaced to the caller as the
500 `Internal server error` response, not as a reply. -/
theorem C6_counterexample :
    Backend.chatHandler
        { messages := some (.strField "not json"
            (.error "Unexpected token \x27o\x27, \"not json\" is not valid JSON")),
          stream := none, files := [] } 0 "2024-01-01T00:00:00.000Z"
      = { status := 500, contentType := "application/json",
          body := .jsonBody (.jobj [("error", .jstr "Internal server error"),
            ("message", .jstr "Unexpected token \x27o\x27, \"not json\" is not valid JSON")]) } :=
  rfl

/-- C6 (amended): the interception path never fails the request — an
unparseable JSON body degrades to the empty message sequence and still
yields a status-200 reply; on the listener path a missing `messages` field
likewise degrades to the empty sequence, but a non-empty `messages` string
that fails to parse raises, and is surfaced to the caller as the 500 error
response. -/
theorem C6_normalizer_recovery :
    (∀ (raw : String) (pick : Nat),
      MockApi.handleApiCall (.strBody raw none) pick =
        { status := 200, contentType := "text/event-stream",
          body := .sse [contentRecord (MockApi.generateResponse "Hello" pick), doneRecord] }) ∧
    (∀ (req : Backend.ChatRequest) (pick : Nat) (ts : String),
      req.messages = none →
      Backend.chatHandler req pick ts =
        (if Backend.isStreaming req.stream then
          { status := 200, contentType := "text/event-stream",
            body := .sse (Backend.backendStreamRecords
              (Backend.selectResponse "" req.files pick)) }
        else
          { status := 200, contentType := "application/json",
            body := .jsonBody (.jobj
              [("content", .jstr (Backend.selectResponse "" req.files pick)),
               ("done", .jbool true), ("timestamp", .jstr ts)]) })) ∧
    (∀ (req : Backend.ChatRequest) (raw msg : String) (pick : Nat) (ts : String),
      req.messages = some (.strField raw (.error msg)) →
      raw ≠ "" →
      Backend.chatHandler req pick ts =
        { status := 500, contentType := "application/json",
          body := .jsonBody (.jobj [("error", .jstr "Internal server error"),
            ("message", .jstr msg)]) }) := by
  refine ⟨fun raw pick => rfl, ?_, ?_⟩
  · intro req pick ts hm
    rcases req with ⟨m, st, fl⟩
    cases hm
    cases hb : Backend.isStreaming st <;>
      simp [Backend.chatHandler, Backend.parseMessages, Backend.userMessageOf, hb]
  · intro req raw msg pick ts hm hraw
    rcases req with ⟨m, st, fl⟩
    cases hm
    have hb : (raw == "") = false := by simpa using hraw
    simp [Backend.chatHandler, Backend.parseMessages, hb]

/-- C6 witness: the amended recovery behaviour at concrete requests — a
missing `messages` field on the listener path, and a malformed one. -/
theorem C6_normalizer_recovery_witness :
    ((({ messages := none, stream := none, files := [] } : Backend.ChatRequest).messages = none) ∧
    Backend.chatHandler { messages := none, stream := none, files := [] } 2 "t" =
      (if Backend.isStreaming (none : Option JsonVal) then
        { status := 200, contentType := "text/event-stream",
          body := .sse (Backend.backendStreamRecords (Backend.selectResponse "" [] 2)) }
      else
        { status := 200, contentType := "application/json",
          body := .jsonBody (.jobj
            [("content", .jstr (Backend.selectResponse "" [] 2)),
             ("done", .jbool true), ("timestamp", .jstr "t")]) })) ∧
    (("not json" : String) ≠ "" ∧
    Backend.chatHandler
        { messages := some (.strField "not json" (.error "bad")),
          stream := none, files := [] } 0 "t" =
      { status := 500, contentType := "application/json",
        body := .jsonBody (.jobj [("error", .jstr "Internal server error"),
          ("message", .jstr "bad")]) }) :=
  ⟨⟨rfl, C6_normalizer_recovery.2.1 { messages := none, stream := none, files := [] } 2 "t" rfl⟩,
   ⟨by decide, C6_normalizer_recovery.2.2
      { messages := some (.strField "not json" (.error "bad")), stream := none, files := [] }
      "not json" "bad" 0 "t" rfl (by decide)⟩⟩

/-- C7, counterexample: a file whose declared mime type is outside the
allowlist is rejected before the handler runs, and the payload names the
offending type — but through a plain `Error`, which the error middleware
answers with status 500 (`Server error`), not the 4xx-class error the claim
asserts. -/
theorem C7_counterexample :
    Backend.listenerPipeline
        { messages := none, stream := none,
          files := [{ originalname := "archive.zip", mimetype := "application/zip" }] } 0 "t"
      = { status := 500, contentType := "application/json",
          body := .jsonBody (.jobj [("error", .jstr "Server error"),
            ("message", .jstr "File type application/zip not allowed")]) } ∧
    ¬ (400 ≤ (Backend.listenerPipeline
        { messages := none, stream := none,
          files := [{ originalname := "archive.zip", mimetype := "application/zip" }] } 0 "t").status ∧
       (Backend.listenerPipeline
        { messages := none, stream := none,
          files := [{ originalname := "archive.zip", mimetype := "application/zip" }] } 0 "t").status < 500) :=
  ⟨rfl, by decide⟩

theorem checkFiles_first_bad : ∀ (pre : List Backend.UploadedFile)
    (f : Backend.UploadedFile) (post : List Backend.UploadedFile),
    (∀ g ∈ pre, Backend.allowedTypes.contains g.mimetype = true) →
    Backend.allowedTypes.contains f.mimetype = false →
    Backend.checkFiles (pre ++ f :: post)
      = .error (.plainErr ("File type " ++ f.mimetype ++ " not allowed"))
  | [], f, post, _, hf => by
    have hf2 : f.mimetype ∉ Backend.allowedTypes := by simpa using hf
    simp [Backend.checkFiles, Backend.fileFilter, hf2]
  | g :: gs, f, post, hpre, hf => by
    have hg : g.mimetype ∈ Backend.allowedTypes := by simpa using hpre g (by simp)
    have ih := checkFiles_first_bad gs f post (fun x hx => hpre x (by simp [hx])) hf
    simp [Backend.checkFiles, Backend.fileFilter, hg, ih]

/-- C7 (amended): on the listener path, a request whose uploaded files
contain one with a mime type outside the allowlist (the earlier ones being
allowlisted, and the count within the multer limit) is rejected before the
chat handler runs — but with the 500-class `Server error` response naming
the offending type, because the `fileFilter` rejection is a plain `Error`,
not a `multer.MulterError`, so it misses the middleware's 400 branches. -/
theorem C7_reject_unsupported_type (pre : List Backend.UploadedFile)
    (f : Backend.UploadedFile) (post : List Backend.UploadedFile)
    (req : Backend.ChatRequest) (pick : Nat) (ts : String)
    (hfiles : req.files = pre ++ f :: post)
    (hpre : ∀ g ∈ pre, Backend.allowedTypes.contains g.mimetype = true)
    (hbad : Backend.allowedTypes.contains f.mimetype = false)
    (hcount : (pre ++ f :: post).length ≤ 5) :
    Backend.listenerPipeline req pick ts
      = { status := 500, contentType := "application/json",
          body := .jsonBody (.jobj [("error", .jstr "Server error"),
            ("message", .jstr ("File type " ++ f.mimetype ++ " not allowed"))]) } := by
  unfold Backend.listenerPipeline Backend.uploadPhase
  rw [hfiles]
  rw [if_neg (by omega : ¬ 5 < (pre ++ f :: post).length)]
  rw [checkFiles_first_bad pre f post hpre hbad]
  rfl

/-- C7 witness: the amended rejection at a concrete upload of
`application/zip`. -/
theorem C7_reject_unsupported_type_witness :
    (({ messages := none, stream := none,
        files := [{ originalname := "a.zip", mimetype := "application/zip" }] }
          : Backend.ChatRequest).files
      = [] ++ ({ originalname := "a.zip", mimetype := "application/zip" }
          : Backend.UploadedFile) :: []) ∧
    Backend.allowedTypes.contains "application/zip" = false ∧
    (([] : List Backend.UploadedFile)
      ++ ({ originalname := "a.zip", mimetype := "application/zip" }
          : Backend.UploadedFile) :: []).length ≤ 5 ∧
    Backend.listenerPipeline
        { messages := none, stream := none,
          files := [{ originalname := "a.zip", mimetype := "application/zip" }] } 1 "t"
      = { status := 500, contentType := "application/json",
          body := .jsonBody (.jobj [("error", .jstr "Server error"),
            ("message", .jstr ("File type " ++ "application/zip" ++ " not allowed"))]) } :=
  ⟨rfl, by decide, by decide,
    C7_reject_unsupported_type []
      { originalname := "a.zip", mimetype := "application/zip" } []
      { messages := none, stream := none,
        files := [{ originalname := "a.zip", mimetype := "application/zip" }] } 1 "t"
      rfl (by simp) (by decide) (by decide)⟩

/-- C8, counterexample: the interception path defaults the last user content
to the literal `'Hello'` for an empty message sequence, but the listener
path defaults it to the empty string `''` (line 112), so the claim's
"treats the content as `\"Hello\"`" fails on the listener path. -/
theorem C8_counterexample :
    MockApi.userMessageOf (.strBody "\x7b\"messages\": []\x7d"
      (some { messages := some [], stream := none })) = "Hello" ∧
    Backend.userMessageOf [] = "" ∧
    ("" : String) ≠ "Hello" :=
  ⟨rfl, rfl, by decide⟩

/-- C8 (amended): for a request with an empty message sequence, the
interception path treats the last user content as `"Hello"` and the
listener path as `""`; each matches no keyword class, so each path selects
`category[pick mod size]` from its default general-response category — a
member of that category for every draw. -/
theorem C8_empty_messages_default (body : MockApi.Body) (pick : Nat)
    (files : List Backend.UploadedFile)
    (hm : MockApi.messagesOf body = []) :
    (MockApi.userMessageOf body = "Hello" ∧
     MockApi.selectedReply body pick = MockApi.mockResponses.getD (pick % 5) "" ∧
     MockApi.selectedReply body pick ∈ MockApi.mockResponses) ∧
    (Backend.userMessageOf [] = "" ∧
     Backend.selectResponse (Backend.userMessageOf []) files pick = Backend.getRandomResponse pick ∧
     Backend.getRandomResponse pick ∈ Backend.mockResponses) := by
  have hu : MockApi.userMessageOf body = "Hello" := by
    unfold MockApi.userMessageOf
    rw [hm]
    rfl
  have hr : MockApi.selectedReply body pick = MockApi.mockResponses.getD (pick % 5) "" := by
    unfold MockApi.selectedReply
    rw [hu]
    rfl
  refine ⟨⟨hu, hr, ?_⟩, rfl, rfl, ?_⟩
  · rw [hr]
    have h5 : pick % 5 < MockApi.mockResponses.length := Nat.mod_lt _ (by decide)
    rw [List.getD_eq_getElem _ _ h5]
    exact List.getElem_mem h5
  · have h7 : pick % Backend.mockResponses.length < Backend.mockResponses.length :=
      Nat.mod_lt _ (by decide)
    unfold Backend.getRandomResponse
    rw [List.getD_eq_getElem _ _ h7]
    exact List.getElem_mem h7

/-- C8 witness: the amended empty-messages behaviour at a concrete request
body with an empty `messages` array and draw 3. -/
theorem C8_empty_messages_default_witness :
    MockApi.messagesOf (.strBody "\x7b\"messages\": []\x7d"
      (some { messages := some [], stream := none })) = [] ∧
    ((MockApi.userMessageOf (.strBody "\x7b\"messages\": []\x7d"
        (some { messages := some [], stream := none })) = "Hello" ∧
      MockApi.selectedReply (.strBody "\x7b\"messages\": []\x7d"
        (some { messages := some [], stream := none })) 3
        = MockApi.mockResponses.getD (3 % 5) "" ∧
      MockApi.selectedReply (.strBody "\x7b\"messages\": []\x7d"
        (some { messages := some [], stream := none })) 3 ∈ MockApi.mockResponses) ∧
    (Backend.userMessageOf [] = "" ∧
     Backend.selectResponse (Backend.userMessageOf []) [] 3 = Backend.getRandomResponse 3 ∧
     Backend.getRandomResponse 3 ∈ Backend.mockResponses)) :=
  ⟨rfl, C8_empty_messages_default
    (.strBody "\x7b\"messages\": []\x7d" (some { messages := some [], stream := none })) 3 [] rfl⟩

/-- C9: a call whose URL does not target the chat endpoint is passed through
to the original fetch with the url and options unmodified. -/
theorem C9_passthrough (url : MockApi.JsUrl) (options : MockApi.FetchOptions) (pick : Nat)
    (h : MockApi.isApiCall url = false) :
    MockApi.windowFetch url options pick = .passthrough url options := by
  simp [MockApi.windowFetch, h]

/-- C9 witness: pass-through at a concrete non-matching URL. -/
theorem C9_passthrough_witness :
    MockApi.isApiCall (.str "https://example.com/data.json") = false ∧
    MockApi.windowFetch (.str "https://example.com/data.json")
        { method := some "GET", headers := [("Accept", "text/html")], body := .otherBody } 0
      = .passthrough (.str "https://example.com/data.json")
        { method := some "GET", headers := [("Accept", "text/html")], body := .otherBody } :=
  ⟨by decide,
    C9_passthrough (.str "https://example.com/data.json")
      { method := some "GET", headers := [("Accept", "text/html")], body := .otherBody } 0
      (by decide)⟩

/-- C10: on the interception path, every `FormData` chat request receives a
single atomic JSON response of shape `{choices: [{message: {content}}]}`
with status 200 and `Content-Type: application/json` — never SSE-framed —
and the response depends only on the collected `file_` entry names: two
`FormData` bodies with the same collected files (whatever their other
fields, e.g. `stream` or `messages`) receive the same response. -/
theorem C10_formdata_atomic_json (entries entries2 : List MockApi.FormEntry) (pick : Nat)
    (h : MockApi.filesOf entries = MockApi.filesOf entries2) :
    MockApi.handleApiCall (.formData entries) pick =
      { status := 200, contentType := "application/json",
        body := .jsonBody (.jobj [("choices", .jarr [.jobj [("message", .jobj
          [("content", .jstr (MockApi.fileReply (MockApi.filesOf entries) pick))])]])]) } ∧
    MockApi.handleApiCall (.formData entries) pick
      = MockApi.handleApiCall (.formData entries2) pick := by
  constructor
  · rfl
  · simp only [MockApi.handleApiCall]
    rw [h]

/-- C10 witness: the atomic JSON shape and the stream-field independence at
two concrete `FormData` bodies with the same uploaded file. -/
theorem C10_formdata_atomic_json_witness :
    MockApi.filesOf [{ key := "file_0", name := "notes.txt" }, { key := "stream", name := "" }]
      = MockApi.filesOf [{ key := "file_0", name := "notes.txt" }, { key := "messages", name := "" }] ∧
    (MockApi.handleApiCall (.formData
        [{ key := "file_0", name := "notes.txt" }, { key := "stream", name := "" }]) 0 =
      { status := 200, contentType := "application/json",
        body := .jsonBody (.jobj [("choices", .jarr [.jobj [("message", .jobj
          [("content", .jstr (MockApi.fileReply (MockApi.filesOf
            [{ key := "file_0", name := "notes.txt" }, { key := "stream", name := "" }]) 0))])]])]) } ∧
    MockApi.handleApiCall (.formData
        [{ key := "file_0", name := "notes.txt" }, { key := "stream", name := "" }]) 0
      = MockApi.handleApiCall (.formData
        [{ key := "file_0", name := "notes.txt" }, { key := "messages", name := "" }]) 0) :=
  ⟨by decide,
    C10_formdata_atomic_json
      [{ key := "file_0", name := "notes.txt" }, { key := "stream", name := "" }]
      [{ key := "file_0", name := "notes.txt" }, { key := "messages", name := "" }] 0
      (by decide)⟩
